import Mathlib

/-!
Verification of the calibration/characterization experiment library
(qiskit_experiments: T1/T2Ramsey analysis, half-angle circuits, frequency
calibration updater) via a shallow embedding in Lean 4.

Python floats that only ever enter exact comparisons against decimal
literals are modelled as rationals (ℚ).  Rotation angles are recorded in
units of π: the Lean value `1/2` stands for the source's `np.pi / 2`.
-/

/-- A fitted parameter: point estimate and optional standard error,
mirroring the (value, stderr) pairs returned by `FitData.fitval`.
`stderr = none` embeds Python's `None`. -/
structure FitVal where
  value : ℚ
  stderr : Option ℚ
deriving DecidableEq

/-- Fit result container.  The analyses under study read the named
parameters `amp`, `tau`, `base` (decay model) and `freq` (oscillation
model) plus the reduced chi-squared; `fitval "amp"` etc. are embedded as
structure fields. -/
structure FitData where
  reduced_chisq : ℚ
  amp : FitVal
  tau : FitVal
  base : FitVal
  freq : FitVal
deriving DecidableEq

/-- `v.stderr is None or v.stderr < bound` from the quality criteria. -/
def stderrBelow (v : FitVal) (bound : ℚ) : Bool :=
  match v.stderr with
  | none => true
  | some s => decide (s < bound)

/-- `T1Analysis._evaluate_quality`: builds the six criteria of
t1_analysis.py and returns "good" iff all hold, else "bad". -/
def T1_evaluate_quality (fit_data : FitData) : String :=
  let amp := fit_data.amp
  let tau := fit_data.tau
  let base := fit_data.base
  let criteria : List Bool := [
    decide (fit_data.reduced_chisq < 3),
    decide (|amp.value - 1| < 1/10),
    decide (|base.value| < 1/10),
    stderrBelow amp (1/10),
    stderrBelow tau tau.value,
    stderrBelow base (1/10)
  ]
  if criteria.all id then ("good") else ("bad")

/-- `T2RamseyAnalysis._evaluate_quality`: the four criteria of
t2ramsey_analysis.py; relative standard error below 10 percent, an absent
standard error passing. -/
def T2_evaluate_quality (fit_data : FitData) : String :=
  let amp := fit_data.amp
  let tau := fit_data.tau
  let freq := fit_data.freq
  let criteria : List Bool := [
    decide (fit_data.reduced_chisq < 3),
    stderrBelow amp (1/10 * amp.value),
    stderrBelow tau (1/10 * tau.value),
    stderrBelow freq (1/10 * freq.value)
  ]
  if criteria.all id then ("good") else ("bad")

/-- The property "the standard error is absent or below `bound`". -/
def StderrAbsentOrBelow (v : FitVal) (bound : ℚ) : Prop :=
  v.stderr = none ∨ ∃ s, v.stderr = some s ∧ s < bound

/-- Spec-worded good-fit predicate for C3, read literally: each of amp,
tau, freq *has* a relative standard error below 10 percent of its value
(so an absent standard error does not qualify). -/
def T2SpecGood (fd : FitData) : Prop :=
  fd.reduced_chisq < 3 ∧
  (∃ s, fd.amp.stderr = some s ∧ s < 1/10 * fd.amp.value) ∧
  (∃ s, fd.tau.stderr = some s ∧ s < 1/10 * fd.tau.value) ∧
  (∃ s, fd.freq.stderr = some s ∧ s < 1/10 * fd.freq.value)

theorem stderrBelow_eq_true_iff (v : FitVal) (b : ℚ) :
    stderrBelow v b = true ↔ StderrAbsentOrBelow v b := by
  unfold stderrBelow StderrAbsentOrBelow
  cases h : v.stderr with
  | none => simp
  | some s => simp [h]

/-- C1: T1 quality is "good" iff all six documented criteria hold,
otherwise "bad". -/
theorem T1_evaluate_quality_iff (fd : FitData) :
    (T1_evaluate_quality fd = "good" ↔
      (fd.reduced_chisq < 3 ∧ |fd.amp.value - 1| < 1/10 ∧
       |fd.base.value| < 1/10 ∧
       StderrAbsentOrBelow fd.amp (1/10) ∧
       StderrAbsentOrBelow fd.tau fd.tau.value ∧
       StderrAbsentOrBelow fd.base (1/10))) ∧
    (T1_evaluate_quality fd = "good" ∨ T1_evaluate_quality fd = "bad") := by
  have hb : ([decide (fd.reduced_chisq < 3), decide (|fd.amp.value - 1| < 1/10),
      decide (|fd.base.value| < 1/10), stderrBelow fd.amp (1/10),
      stderrBelow fd.tau fd.tau.value, stderrBelow fd.base (1/10)].all id = true) ↔
      (fd.reduced_chisq < 3 ∧ |fd.amp.value - 1| < 1/10 ∧
       |fd.base.value| < 1/10 ∧
       StderrAbsentOrBelow fd.amp (1/10) ∧
       StderrAbsentOrBelow fd.tau fd.tau.value ∧
       StderrAbsentOrBelow fd.base (1/10)) := by
    simp [stderrBelow_eq_true_iff]
  unfold T1_evaluate_quality
  dsimp only
  constructor
  · split
    case isTrue h => exact iff_of_true rfl (hb.mp h)
    case isFalse h => exact iff_of_false (by decide) (fun hp => h (hb.mpr hp))
  · split
    · exact Or.inl rfl
    · exact Or.inr rfl

/-- A concrete oscillation-fit result whose freq standard error is absent:
the code's criteria all pass, the literal spec predicate does not. -/
def t2QualityProbe : FitData :=
  { reduced_chisq := 1
    amp := ⟨1, some (1/100)⟩
    tau := ⟨1, some (1/100)⟩
    base := ⟨0, none⟩
    freq := ⟨1, none⟩ }

/-- C3 counterexample: a fit result with an absent freq standard error is
rated "good" by `T2RamseyAnalysis._evaluate_quality`, although freq does
not have a relative standard error below 10 percent, refuting the claimed
if-and-only-if. -/
theorem T2_evaluate_quality_spec_counterexample :
    T2_evaluate_quality t2QualityProbe = "good" ∧ ¬ T2SpecGood t2QualityProbe := by
  constructor
  · norm_num [T2_evaluate_quality, t2QualityProbe, stderrBelow]
  · rintro ⟨-, -, -, s, hs, -⟩
    exact Option.noConfusion hs

/-- C3 (amended): T2 Ramsey quality is "good" iff the reduced chi-squared
is below 3 and, for each of amp, tau and freq, the standard error is
absent or below 10 percent of the fitted value; otherwise "bad". -/
theorem T2_evaluate_quality_iff (fd : FitData) :
    (T2_evaluate_quality fd = "good" ↔
      (fd.reduced_chisq < 3 ∧
       StderrAbsentOrBelow fd.amp (1/10 * fd.amp.value) ∧
       StderrAbsentOrBelow fd.tau (1/10 * fd.tau.value) ∧
       StderrAbsentOrBelow fd.freq (1/10 * fd.freq.value))) ∧
    (T2_evaluate_quality fd = "good" ∨ T2_evaluate_quality fd = "bad") := by
  have hb : ([decide (fd.reduced_chisq < 3),
      stderrBelow fd.amp (1/10 * fd.amp.value),
      stderrBelow fd.tau (1/10 * fd.tau.value),
      stderrBelow fd.freq (1/10 * fd.freq.value)].all id = true) ↔
      (fd.reduced_chisq < 3 ∧
       StderrAbsentOrBelow fd.amp (1/10 * fd.amp.value) ∧
       StderrAbsentOrBelow fd.tau (1/10 * fd.tau.value) ∧
       StderrAbsentOrBelow fd.freq (1/10 * fd.freq.value)) := by
    simp [stderrBelow_eq_true_iff]
  unfold T2_evaluate_quality
  dsimp only
  constructor
  · split
    case isTrue h => exact iff_of_true rfl (hb.mp h)
    case isFalse h => exact iff_of_false (by decide) (fun hp => h (hb.mpr hp))
  · split
    · exact Or.inl rfl
    · exact Or.inr rfl

/-- C7: quality evaluation is a pure function of the fit data — two calls
on identical FitData give identical labels, for both analyses. -/
theorem evaluate_quality_pure (fd fd₂ : FitData) (h : fd = fd₂) :
    T1_evaluate_quality fd = T1_evaluate_quality fd₂ ∧
    T2_evaluate_quality fd = T2_evaluate_quality fd₂ := by
  subst h
  exact ⟨rfl, rfl⟩

/-- Concrete fit result for exercising the purity theorem. -/
def purityProbe : FitData :=
  { reduced_chisq := 2
    amp := ⟨21/20, some (1/20)⟩
    tau := ⟨3, some (1/5)⟩
    base := ⟨1/50, none⟩
    freq := ⟨5, some (1/4)⟩ }

theorem evaluate_quality_pure_witness :
    T1_evaluate_quality purityProbe = T1_evaluate_quality purityProbe ∧
    T2_evaluate_quality purityProbe = T2_evaluate_quality purityProbe :=
  evaluate_quality_pure purityProbe purityProbe rfl

/-- Instruction set of the half-angle circuits; `rz` stores its rotation
angle in units of π (the value 1/2 stands for the source's np.pi / 2), and
`measureAll` embeds `QuantumCircuit.measure_all()`. -/
inductive Instr where
  | rz (anglePi : ℚ)
  | sx
  | y
  | measureAll
deriving DecidableEq

/-- The metadata dict attached to each generated circuit. -/
structure CircuitMetadata where
  experiment_type : String
  qubits : List ℕ
  xval : ℕ
  unit : String
deriving DecidableEq

/-- A single-qubit circuit: ordered gate list plus its metadata. -/
structure QuantumCircuit where
  ops : List Instr
  metadata : CircuitMetadata
deriving DecidableEq

/-- The state of a HalfAngle experiment instance that `circuits` reads:
its type tag, physical qubits and the repetitions experiment option. -/
structure HalfAngleExp where
  expType : String
  physical_qubits : List ℕ
  repetitions : List ℕ
deriving DecidableEq

/-- The error-amplifying loop of `HalfAngle.circuits`: each iteration
appends sx, sx, y. -/
def errorAmpOps : ℕ → List Instr
  | 0 => []
  | n + 1 => errorAmpOps n ++ [Instr.sx, Instr.sx, Instr.y]

/-- The loop body of `HalfAngle.circuits` for one repetition count:
empty pre-circuit, the first ry gate as rz-sx-rz, the amplification loop,
a final sx, measure_all, then the metadata assignment. -/
def halfAngleCircuit (ty : String) (qubits : List ℕ) (repetition : ℕ) : QuantumCircuit :=
  { ops := ([Instr.rz (1/2), Instr.sx, Instr.rz (-(1/2))] ++ errorAmpOps repetition)
      ++ [Instr.sx, Instr.measureAll]
    metadata :=
      { experiment_type := ty
        qubits := qubits
        xval := repetition
        unit := "repetition number" } }

/-- `HalfAngle.circuits`: one circuit per entry of the repetitions
option. -/
def HalfAngle.circuits (e : HalfAngleExp) : List QuantumCircuit :=
  e.repetitions.map (halfAngleCircuit e.expType e.physical_qubits)

/-- C5: for every repetition count n in the repetitions option, the
generated circuit is the fixed preparation opening rz(π/2), sx, rz(−π/2),
then exactly n copies of the block [sx, sx, y], then one sx and the
measurement of all qubits. -/
theorem halfAngle_circuit_structure (e : HalfAngleExp) (n : ℕ) (h : n ∈ e.repetitions) :
    halfAngleCircuit e.expType e.physical_qubits n ∈ HalfAngle.circuits e ∧
    (halfAngleCircuit e.expType e.physical_qubits n).ops =
      [Instr.rz (1/2), Instr.sx, Instr.rz (-(1/2))] ++
      (List.replicate n [Instr.sx, Instr.sx, Instr.y]).flatten ++
      [Instr.sx, Instr.measureAll] := by
  refine ⟨List.mem_map_of_mem _ h, ?_⟩
  have hrep : ∀ m, errorAmpOps m = (List.replicate m [Instr.sx, Instr.sx, Instr.y]).flatten := by
    intro m
    induction m with
    | zero => rfl
    | succ k ih =>
      rw [List.replicate_succ']
      simp [errorAmpOps, ih]
  simp [halfAngleCircuit, hrep]

/-- A concrete HalfAngle experiment state used by closed instances. -/
def halfAngleProbe : HalfAngleExp :=
  { expType := "HalfAngle", physical_qubits := [0], repetitions := [0, 1, 2] }

theorem halfAngle_circuit_structure_witness :
    halfAngleCircuit ("HalfAngle") [0] 2 ∈ HalfAngle.circuits halfAngleProbe ∧
    (halfAngleCircuit ("HalfAngle") [0] 2).ops =
      [Instr.rz (1/2), Instr.sx, Instr.rz (-(1/2))] ++
      (List.replicate 2 [Instr.sx, Instr.sx, Instr.y]).flatten ++
      [Instr.sx, Instr.measureAll] :=
  halfAngle_circuit_structure halfAngleProbe 2 (by decide)

/-- C6: `HalfAngle.circuits` yields one circuit per entry of the
repetitions option, in order, and every circuit's metadata carries the
experiment type tag, the physical qubit list, xval equal to the scan
value, and the unit string "repetition number". -/
theorem halfAngle_circuits_metadata (e : HalfAngleExp) :
    (HalfAngle.circuits e).length = e.repetitions.length ∧
    (HalfAngle.circuits e).map QuantumCircuit.metadata =
      e.repetitions.map (fun n =>
        { experiment_type := e.expType
          qubits := e.physical_qubits
          xval := n
          unit := "repetition number" }) := by
  constructor
  · simp [HalfAngle.circuits]
  · simp only [HalfAngle.circuits, List.map_map]
    rfl

/-- `ParameterRepr(name, repr, unit)` of curve_analysis. -/
structure ParameterRepr where
  name : String
  repr : String
  unit : String
deriving DecidableEq

/-- The analysis option fields that `HalfAngle._default_analysis_options`
assigns; angles are stored in units of π.  The `bounds` dict is an
association list keyed by parameter name. -/
structure AnalysisOptions where
  result_parameters : List ParameterRepr
  normalization : Bool
  angle_per_gate : ℚ
  phase_offset : ℚ
  amp : ℚ
  bounds : List (String × (ℚ × ℚ))
deriving DecidableEq

/-- Python dict update for one key of an association list: replace the
entry of the key if present, else add it. -/
def updateAssoc {α : Type} : List (String × α) → String → α → List (String × α)
  | [], k, v => [(k, v)]
  | (k₀, v₀) :: t, k, v =>
    if k₀ = k then (k, v) :: t else (k₀, v₀) :: updateAssoc t k v

theorem lookup_updateAssoc {α : Type} (l : List (String × α)) (k : String) (v : α) :
    (updateAssoc l k v).lookup k = some v := by
  induction l with
  | nil => simp [updateAssoc, List.lookup]
  | cons p t ih =>
    obtain ⟨k₀, v₀⟩ := p
    by_cases h : k₀ = k
    · simp [updateAssoc, h, List.lookup]
    · simp only [updateAssoc, if_neg h, List.lookup]
      have hne : (k == k₀) = false := by
        simp [Ne.symm h]
      rw [hne]
      exact ih

/-- `HalfAngle._default_analysis_options`, applied to whatever options the
parent class returns: it installs the d_theta result parameter,
normalization, angle per gate π (recorded as 1), phase offset −π/2
(recorded as −1/2), amp 1, and updates the bounds dict at "d_theta" with
(−π/2, π/2) (recorded as (−1/2, 1/2)). -/
def HalfAngle.default_analysis_options (base : AnalysisOptions) : AnalysisOptions :=
  { base with
    result_parameters := [{ name := "d_theta", repr := "d_hac", unit := "rad" }]
    normalization := true
    angle_per_gate := 1
    phase_offset := -(1/2)
    amp := 1
    bounds := updateAssoc base.bounds ("d_theta") (-(1/2), 1/2) }

/-- C9: whatever bounds the parent's default options carry, HalfAngle's
default analysis options bind "d_theta" to exactly (−π/2, π/2) (stored in
units of π as (−1/2, 1/2)). -/
theorem halfAngle_d_theta_bounds (base : AnalysisOptions) :
    (HalfAngle.default_analysis_options base).bounds.lookup ("d_theta") =
      some (-(1/2 : ℚ), (1/2 : ℚ)) :=
  lookup_updateAssoc base.bounds ("d_theta") _

/-- A metadata dict value: the experiment metadata stores numbers and
strings. -/
inductive MVal where
  | num (q : ℚ)
  | str (s : String)
deriving DecidableEq

/-- ExperimentData as the updater sees it: the metadata dict and the named
numeric analysis results produced by the fit. -/
structure ExperimentData where
  metadata : List (String × MVal)
  analysis_results : List (String × ℚ)
deriving DecidableEq

/-- Python dict lookup `d[k]`: raises KeyError when the key is missing. -/
def dictGet (md : List (String × MVal)) (k : String) : Except String MVal :=
  match md.lookup k with
  | some v => Except.ok v
  | none => Except.error ("KeyError: " ++ k)

/-- The calibration parameter store: entries (parameter name, group,
value).  Modelled from the spec: the calibration store boundary appends
new parameter values rather than mutating history in place. -/
structure CalStore where
  entries : List (String × MVal × ℚ)
deriving DecidableEq

/-- Modelled from the spec: `BaseUpdater.add_parameter_value` (module
calibration_management.update_library, not under src/) appends a new
entry to the calibration store. -/
def add_parameter_value (cals : CalStore) (value : ℚ) (param_name : String)
    (group : MVal) : CalStore :=
  ⟨cals.entries ++ [(param_name, group, value)]⟩

/-- Modelled from the spec: `BaseUpdater.get_value` (module
calibration_management.update_library, not under src/) returns the value
of the analysis result with the given name at the given result index. -/
def get_value (experiment_data : ExperimentData) (param_name : String)
    (index : ℕ) : Except String ℚ :=
  match (experiment_data.analysis_results.filter (fun p => p.1 == param_name))[index]? with
  | some p => Except.ok p.2
  | none => Except.error ("result not found: " ++ param_name)

/-- `FrequencyCal.update_calibrations`: reads the applied oscillation
frequency, the calibration group and the old calibration value from the
experiment-data metadata (in that order), reads the fitted frequency from
the analysis result named "freq", computes new = old + fit − osc, and
commits it to the calibration store. -/
def update_calibrations (cals : CalStore) (param_name : String)
    (experiment_data : ExperimentData) (result_index : ℕ) :
    Except String CalStore := do
  let osc_freq ← dictGet experiment_data.metadata ("osc_freq")
  let group ← dictGet experiment_data.metadata ("cal_group")
  let old_freq ← dictGet experiment_data.metadata ("cal_param_value")
  let fit_freq ← get_value experiment_data ("freq") result_index
  match old_freq, osc_freq with
  | MVal.num o, MVal.num s =>
    pure (add_parameter_value cals (o + fit_freq - s) param_name group)
  | _, _ => Except.error ("TypeError: unsupported operand type")

/-- `FrequencyCal._add_cal_metadata`: echoes the current calibration value
(read beforehand from the calibration store), the calibration group and
the applied oscillation frequency into the experiment-data metadata,
under the keys cal_param_value, cal_group and osc_freq. -/
def add_cal_metadata (experiment_data : ExperimentData) (param_val : ℚ)
    (group : String) (osc_freq : ℚ) : ExperimentData :=
  let md := updateAssoc experiment_data.metadata ("cal_param_value") (MVal.num param_val)
  let md := updateAssoc md ("cal_group") (MVal.str group)
  let md := updateAssoc md ("osc_freq") (MVal.num osc_freq)
  { experiment_data with metadata := md }

/-- C2: whenever the metadata echoes the old calibration value, group and
applied oscillation frequency, and the fit produced a result named
"freq", the updater commits to the store exactly the value
old_value + fitted_frequency − applied oscillation offset. -/
theorem update_calibrations_commits (cals : CalStore) (param_name : String)
    (ed : ExperimentData) (idx : ℕ) (old osc f : ℚ) (g : MVal)
    (hosc : ed.metadata.lookup ("osc_freq") = some (MVal.num osc))
    (hg : ed.metadata.lookup ("cal_group") = some g)
    (hold : ed.metadata.lookup ("cal_param_value") = some (MVal.num old))
    (hf : get_value ed ("freq") idx = Except.ok f) :
    update_calibrations cals param_name ed idx =
      Except.ok ⟨cals.entries ++ [(param_name, g, old + f - osc)]⟩ := by
  simp [update_calibrations, dictGet, hosc, hg, hold, hf, add_parameter_value,
    bind, Except.bind, pure, Except.pure]

/-- A concrete completed frequency-calibration experiment record. -/
def frequencyCalProbe : ExperimentData :=
  { metadata := [("cal_param_value", MVal.num 5000000), ("cal_group", MVal.str ("default")),
                 ("osc_freq", MVal.num 2000000)]
    analysis_results := [("freq", 2500000)] }

theorem update_calibrations_commits_witness :
    update_calibrations ⟨[]⟩ ("qubit_lo_freq") frequencyCalProbe 0 =
      Except.ok ⟨[] ++ [("qubit_lo_freq", MVal.str ("default"),
        (5000000 : ℚ) + 2500000 - 2000000)]⟩ :=
  update_calibrations_commits ⟨[]⟩ ("qubit_lo_freq") frequencyCalProbe 0
    5000000 2000000 2500000 (MVal.str ("default")) rfl rfl rfl rfl

/-- Modelled from the spec: the run flow of the base calibration
experiment (module base_calibration_experiment, not under src/) — the
fit always runs on the collected data; the calibration write is performed
only when the auto_update flag fixed at construction is true, otherwise
the write is skipped and the store is left as it was. -/
def runFrequencyCal (auto_update : Bool) (cals : CalStore) (param_name : String)
    (experiment_data : ExperimentData) (result_index : ℕ) :
    Except String ℚ × Except String CalStore :=
  (get_value experiment_data ("freq") result_index,
   if auto_update then update_calibrations cals param_name experiment_data result_index
   else Except.ok cals)

/-- C4: with auto_update = false the calibration store comes back
unchanged while the fit result is still computed. -/
theorem runFrequencyCal_no_update (auto_update : Bool) (cals : CalStore)
    (param_name : String) (ed : ExperimentData) (idx : ℕ)
    (h : auto_update = false) :
    (runFrequencyCal auto_update cals param_name ed idx).2 = Except.ok cals ∧
    (runFrequencyCal auto_update cals param_name ed idx).1 = get_value ed ("freq") idx := by
  subst h
  exact ⟨rfl, rfl⟩

theorem runFrequencyCal_no_update_witness :
    (runFrequencyCal false ⟨[]⟩ ("qubit_lo_freq") frequencyCalProbe 0).2 =
      Except.ok ⟨[]⟩ ∧
    (runFrequencyCal false ⟨[]⟩ ("qubit_lo_freq") frequencyCalProbe 0).1 =
      get_value frequencyCalProbe ("freq") 0 :=
  runFrequencyCal_no_update false ⟨[]⟩ ("qubit_lo_freq") frequencyCalProbe 0 rfl

theorem lookup_updateAssoc_ne {α : Type} (l : List (String × α)) (k q : String)
    (v : α) (h : k ≠ q) : (updateAssoc l q v).lookup k = l.lookup k := by
  induction l with
  | nil =>
    simp only [updateAssoc, List.lookup]
    rw [show (k == q) = false by simp [h]]
  | cons p t ih =>
    obtain ⟨k₀, v₀⟩ := p
    by_cases hk : k₀ = q
    · subst hk
      simp only [updateAssoc, if_pos rfl, List.lookup]
      rw [show (k == k₀) = false by simp [h]]
    · simp only [updateAssoc, if_neg hk, List.lookup]
      cases hkk : (k == k₀)
      · simpa using ih
      · rfl

theorem add_cal_metadata_lookup (ed : ExperimentData) (v f : ℚ) (g : String) :
    (add_cal_metadata ed v g f).metadata.lookup ("cal_param_value") = some (MVal.num v) ∧
    (add_cal_metadata ed v g f).metadata.lookup ("cal_group") = some (MVal.str g) ∧
    (add_cal_metadata ed v g f).metadata.lookup ("osc_freq") = some (MVal.num f) := by
  dsimp only [add_cal_metadata]
  refine ⟨?_, ?_, ?_⟩
  · rw [lookup_updateAssoc_ne _ _ _ _ (by decide), lookup_updateAssoc_ne _ _ _ _ (by decide)]
    exact lookup_updateAssoc _ _ _
  · rw [lookup_updateAssoc_ne _ _ _ _ (by decide)]
    exact lookup_updateAssoc _ _ _
  · exact lookup_updateAssoc _ _ _

/-- C10: (1) `_add_cal_metadata` writes the echoed old value, group and
oscillation frequency under the keys cal_param_value, cal_group and
osc_freq; (2) on any experiment data whose metadata was produced by
`_add_cal_metadata`, `update_calibrations` commits exactly
echoed_old + fitted_freq − echoed_osc — it reads those quantities from the
metadata, not from a fresh calibration-store read; (3) when any of the
three keys is missing it fails with a KeyError naming the first missing
key in read order, returning no store; (4) the calibration store passed in
enters the computation only as the append target of the final write. -/
theorem update_calibrations_reads_cal_metadata :
    (∀ (ed : ExperimentData) (v f : ℚ) (g : String),
      (add_cal_metadata ed v g f).metadata.lookup ("cal_param_value") = some (MVal.num v) ∧
      (add_cal_metadata ed v g f).metadata.lookup ("cal_group") = some (MVal.str g) ∧
      (add_cal_metadata ed v g f).metadata.lookup ("osc_freq") = some (MVal.num f)) ∧
    (∀ (cals : CalStore) (param : String) (ed : ExperimentData) (idx : ℕ)
      (v f fit : ℚ) (g : String),
      get_value ed ("freq") idx = Except.ok fit →
      update_calibrations cals param (add_cal_metadata ed v g f) idx =
        Except.ok ⟨cals.entries ++ [(param, MVal.str g, v + fit - f)]⟩) ∧
    (∀ (cals : CalStore) (param : String) (ed : ExperimentData) (idx : ℕ),
      (ed.metadata.lookup ("osc_freq") = none →
        update_calibrations cals param ed idx =
          Except.error ("KeyError: " ++ "osc_freq")) ∧
      (∀ w, ed.metadata.lookup ("osc_freq") = some w →
        ed.metadata.lookup ("cal_group") = none →
        update_calibrations cals param ed idx =
          Except.error ("KeyError: " ++ "cal_group")) ∧
      (∀ w u, ed.metadata.lookup ("osc_freq") = some w →
        ed.metadata.lookup ("cal_group") = some u →
        ed.metadata.lookup ("cal_param_value") = none →
        update_calibrations cals param ed idx =
          Except.error ("KeyError: " ++ "cal_param_value"))) ∧
    (∀ (cals : CalStore) (param : String) (ed : ExperimentData) (idx : ℕ),
      update_calibrations cals param ed idx =
        Except.map (fun s => CalStore.mk (cals.entries ++ s.entries))
          (update_calibrations ⟨[]⟩ param ed idx)) := by
  refine ⟨add_cal_metadata_lookup, ?_, ?_, ?_⟩
  · intro cals param ed idx v f fit g hfit
    obtain ⟨h1, h2, h3⟩ := add_cal_metadata_lookup ed v f g
    have hres : (add_cal_metadata ed v g f).analysis_results = ed.analysis_results := rfl
    have hfit2 : get_value (add_cal_metadata ed v g f) ("freq") idx = Except.ok fit := by
      unfold get_value at hfit ⊢
      rw [hres]
      exact hfit
    simp [update_calibrations, dictGet, h1, h2, h3, hfit2, add_parameter_value,
      bind, Except.bind, pure, Except.pure]
  · intro cals param ed idx
    refine ⟨?_, ?_, ?_⟩
    · intro h
      simp [update_calibrations, dictGet, h, bind, Except.bind]
    · intro w hw h
      simp [update_calibrations, dictGet, hw, h, bind, Except.bind]
    · intro w u hw hu h
      simp [update_calibrations, dictGet, hw, hu, h, bind, Except.bind]
  · intro cals param ed idx
    cases hosc : ed.metadata.lookup ("osc_freq") with
    | none => simp [update_calibrations, dictGet, hosc, bind, Except.bind, Except.map]
    | some vosc =>
      cases hg : ed.metadata.lookup ("cal_group") with
      | none => simp [update_calibrations, dictGet, hosc, hg, bind, Except.bind, Except.map]
      | some vg =>
        cases hold : ed.metadata.lookup ("cal_param_value") with
        | none =>
          simp [update_calibrations, dictGet, hosc, hg, hold, bind, Except.bind, Except.map]
        | some vold =>
          cases hfit : get_value ed ("freq") idx with
          | error e =>
            simp [update_calibrations, dictGet, hosc, hg, hold, hfit, bind,
              Except.bind, Except.map]
          | ok fit =>
            cases vold <;> cases vosc <;>
              simp [update_calibrations, dictGet, hosc, hg, hold, hfit, bind,
                Except.bind, Except.map, pure, Except.pure, add_parameter_value]

/-- A bare experiment record holding only a fitted "freq" result. -/
def bareFreqEd : ExperimentData :=
  { metadata := [], analysis_results := [("freq", 2500000)] }

/-- An experiment record with no metadata and no results. -/
def emptyEd : ExperimentData :=
  { metadata := [], analysis_results := [] }

theorem update_calibrations_reads_cal_metadata_witness :
    update_calibrations ⟨[]⟩ ("qubit_lo_freq")
        (add_cal_metadata bareFreqEd 5000000 ("default") 2000000) 0 =
      Except.ok ⟨[] ++ [("qubit_lo_freq", MVal.str ("default"),
        (5000000 : ℚ) + 2500000 - 2000000)]⟩ ∧
    update_calibrations ⟨[]⟩ ("qubit_lo_freq") emptyEd 0 =
      Except.error ("KeyError: " ++ "osc_freq") :=
  ⟨update_calibrations_reads_cal_metadata.2.1 ⟨[]⟩ ("qubit_lo_freq") bareFreqEd 0
      5000000 2000000 2500000 ("default") rfl,
   (update_calibrations_reads_cal_metadata.2.2.1 ⟨[]⟩ ("qubit_lo_freq") emptyEd 0).1 rfl⟩

/-- The `p0` initial-guess dict of FitOptions: every fit parameter key is
present, mapped to the user's guess or to None. -/
structure FitOptionsP0 where
  amp : Option ℚ
  tau : Option ℚ
  base : Option ℚ
  freq : Option ℚ
  phase : Option ℚ
deriving DecidableEq

/-- The body of `_generate_fit_guesses` shared verbatim by T1Analysis and
T2RamseyAnalysis: if the user supplied a tau guess it is multiplied in
place by the experiment's conversion factor, otherwise p0 is left
untouched, before handing off to the parent's guess generation. -/
def generate_fit_guesses_tau_step (conversion_factor : ℚ)
    (user_opt : FitOptionsP0) : FitOptionsP0 :=
  match user_opt.tau with
  | some t => { user_opt with tau := some (t * conversion_factor) }
  | none => user_opt

/-- Modelled from the spec: the parent guess generation (DecayAnalysis /
DumpedOscillationAnalysis in curve_analysis, not under src/) merges the
user-supplied guesses with computed heuristic defaults — a user guess is
kept, an unset entry is filled with the computed value. -/
def mergeGuesses (computed user_opt : FitOptionsP0) : FitOptionsP0 :=
  { amp := user_opt.amp <|> computed.amp
    tau := user_opt.tau <|> computed.tau
    base := user_opt.base <|> computed.base
    freq := user_opt.freq <|> computed.freq
    phase := user_opt.phase <|> computed.phase }

/-- `_generate_fit_guesses` end to end: the tau rescaling of the source,
then the parent merge. -/
def generate_fit_guesses (conversion_factor : ℚ)
    (computed user_opt : FitOptionsP0) : FitOptionsP0 :=
  mergeGuesses computed (generate_fit_guesses_tau_step conversion_factor user_opt)

/-- C8: a user tau guess is scaled by the conversion factor and survives
the merge as user tau × factor; with no user tau guess, tau stays unset
into the parent call and ends up as the computed default; every other
user-supplied guess passes through unchanged. -/
theorem generate_fit_guesses_tau_scaling (cf : ℚ) (computed p0 : FitOptionsP0) :
    ((∀ t, p0.tau = some t →
        (generate_fit_guesses_tau_step cf p0).tau = some (t * cf) ∧
        (generate_fit_guesses cf computed p0).tau = some (t * cf)) ∧
     (p0.tau = none →
        (generate_fit_guesses_tau_step cf p0).tau = none ∧
        (generate_fit_guesses cf computed p0).tau = computed.tau)) ∧
    ((generate_fit_guesses_tau_step cf p0).amp = p0.amp ∧
     (generate_fit_guesses_tau_step cf p0).base = p0.base ∧
     (generate_fit_guesses_tau_step cf p0).freq = p0.freq ∧
     (generate_fit_guesses_tau_step cf p0).phase = p0.phase) ∧
    ((∀ a, p0.amp = some a → (generate_fit_guesses cf computed p0).amp = some a) ∧
     (∀ b, p0.base = some b → (generate_fit_guesses cf computed p0).base = some b) ∧
     (∀ w, p0.freq = some w → (generate_fit_guesses cf computed p0).freq = some w) ∧
     (∀ w, p0.phase = some w → (generate_fit_guesses cf computed p0).phase = some w)) := by
  cases htau : p0.tau with
  | some t =>
    refine ⟨⟨?_, ?_⟩, ?_, ?_⟩
    · intro u hu
      obtain rfl : t = u := Option.some_injective _ hu
      constructor
      · simp [generate_fit_guesses_tau_step, htau]
      · simp [generate_fit_guesses, mergeGuesses, generate_fit_guesses_tau_step, htau]
    · intro hnone
      exact Option.noConfusion hnone
    · refine ⟨?_, ?_, ?_, ?_⟩ <;> simp [generate_fit_guesses_tau_step, htau]
    · refine ⟨?_, ?_, ?_, ?_⟩ <;> intro x hx <;>
        simp [generate_fit_guesses, mergeGuesses, generate_fit_guesses_tau_step, htau, hx]
  | none =>
    refine ⟨⟨?_, ?_⟩, ?_, ?_⟩
    · intro u hu
      exact Option.noConfusion hu
    · intro _
      constructor
      · simp [generate_fit_guesses_tau_step, htau]
      · simp [generate_fit_guesses, mergeGuesses, generate_fit_guesses_tau_step, htau]
    · refine ⟨?_, ?_, ?_, ?_⟩ <;> simp [generate_fit_guesses_tau_step, htau]
    · refine ⟨?_, ?_, ?_, ?_⟩ <;> intro x hx <;>
        simp [generate_fit_guesses, mergeGuesses, generate_fit_guesses_tau_step, htau, hx]

/-- Concrete partial user guess: tau and amp supplied, the rest unset. -/
def userGuessProbe : FitOptionsP0 :=
  { amp := some 1, tau := some 3, base := none, freq := none, phase := none }

/-- Concrete computed defaults for the remaining parameters. -/
def computedGuessProbe : FitOptionsP0 :=
  { amp := some 1, tau := some 7, base := some 0, freq := some 2, phase := some 0 }

theorem generate_fit_guesses_tau_scaling_witness :
    ((generate_fit_guesses_tau_step 2 userGuessProbe).tau = some (3 * 2) ∧
     (generate_fit_guesses 2 computedGuessProbe userGuessProbe).tau = some (3 * 2)) ∧
    (generate_fit_guesses 2 computedGuessProbe userGuessProbe).amp = some 1 :=
  ⟨(generate_fit_guesses_tau_scaling 2 computedGuessProbe userGuessProbe).1.1 3 rfl,
   (generate_fit_guesses_tau_scaling 2 computedGuessProbe userGuessProbe).2.2.1 1 rfl⟩
